import Mathlib

/-!
Verification development for the single-file voice assistant
(`mobile_assistant.py`).  The Python program is shallowly embedded:

* strings are Lean `String`s (the program lowercases all matched text, and
  all matching is by literal substring or leading-pattern tests, which we
  model by executable functions over `List Char`);
* wall-clock `datetime` values are modelled by a record with an abstract
  day index plus hour/minute/second (the program only ever compares
  datetimes, replaces hour/minute/second, and formats them);
* side effects (console prints, text-to-speech, opening URLs, subprocess
  calls, file writes, reminder scheduling, process exit) are modelled as an
  explicit event trace;
* the `listen_once` microphone capture is modelled by an input queue of
  `Option String` values consumed in order;
* the process-wide `REMINDERS` list is threaded through `handle_command`
  as explicit state;
* the module imports only `datetime` from the `datetime` module, so every
  evaluation of `timedelta(...)` inside `handle_command` raises a
  `NameError`, which the surrounding `try/except` catches.  The embedding
  reflects this with an explicit error outcome in the reminder parser.
-/

/-! ## Character-list primitives mirroring the Python string operations -/

/-- Leading-match test on character lists: does `s` begin with `p`?
Models Python `s.startswith(p)`. -/
def listPref : List Char → List Char → Bool
  | [], _ => true
  | _ :: _, [] => false
  | a :: as, b :: bs => a == b && listPref as bs

/-- Substring test: does `s` contain `p` as a contiguous run?
Models Python `p in s`. -/
def listSub (p : List Char) : List Char → Bool
  | [] => p.isEmpty
  | c :: r => listPref p (c :: r) || listSub p r

/-- `s.startswith(p)` on `String`. -/
def strPref (s p : String) : Bool := listPref p.toList s.toList

/-- `p in s` on `String`. -/
def strSub (s p : String) : Bool := listSub p.toList s.toList

/-- Python whitespace test for the characters that matter here. -/
def isWs (c : Char) : Bool := c == ' ' || c == '\t' || c == '\n' || c == '\r'

/-- Python `s.strip()`. -/
def pyStrip (s : String) : String :=
  String.mk (((s.toList.dropWhile isWs).reverse.dropWhile isWs).reverse)

/-- Python `s.lower()` (ASCII case folding; recognized speech here is
ASCII). -/
def pyLower (s : String) : String := String.mk (s.toList.map Char.toLower)

/-- Python slicing `s[n:]`. -/
def strDropL (s : String) (n : Nat) : String := String.mk (s.toList.drop n)

/-- Everything after the first space: Python `s.split(" ", 1)[1]` for a
string known to contain a space (all call sites are guarded by a
`startswith` test whose pattern ends in a space). -/
def afterFirstSpace : List Char → List Char
  | [] => []
  | c :: r => if c == ' ' then r else afterFirstSpace r

/-- `String` version of `afterFirstSpace`. -/
def afterFirstSpaceS (s : String) : String := String.mk (afterFirstSpace s.toList)

/-- Python `s.split(sep)` for a one-character separator (keeps empty
pieces, exactly like Python). -/
def splitCh (sep : Char) : List Char → List (List Char)
  | [] => [[]]
  | c :: r =>
    if c == sep then [] :: splitCh sep r
    else
      match splitCh sep r with
      | [] => [[c]]
      | h :: t => (c :: h) :: t

/-- Python `s.split(" ", n)`: split on single spaces, at most `n` splits. -/
def splitSpMax : Nat → List Char → List (List Char)
  | _, [] => [[]]
  | 0, s => [s]
  | n + 1, c :: r =>
    if c == ' ' then [] :: splitSpMax n r
    else
      match splitSpMax (n + 1) r with
      | [] => [[c]]
      | h :: t => (c :: h) :: t

/-- Python `" ".join(parts)`. -/
def joinSp : List (List Char) → List Char
  | [] => []
  | [p] => p
  | p :: q :: r => p ++ ' ' :: joinSp (q :: r)

/-- Python `s.replace(" ", c)` for a single replacement character. -/
def replSpace (c : Char) (s : String) : String :=
  String.mk (s.toList.map (fun x => if x == ' ' then c else x))

/-- The pattern removed by `txt.replace("wikipedia", "")`. -/
def wikiChars : List Char := "wikipedia".toList

/-- Fuel-indexed scan for `s.replace("wikipedia", "")`: Python `str.replace`
scans left to right, removing each non-overlapping occurrence.  The fuel
equals the length of the scanned list at the top call, which the scan never
exhausts. -/
def stripWikiF : Nat → List Char → List Char
  | 0, s => s
  | _ + 1, [] => []
  | f + 1, c :: r =>
    if listPref wikiChars (c :: r) then stripWikiF f (r.drop 8)
    else c :: stripWikiF f r

/-- Python `txt.replace("wikipedia", "")`. -/
def stripWikiS (s : String) : String := String.mk (stripWikiF s.toList.length s.toList)

/-- Decimal value of a digit list: models Python `int` applied to a string
of digit characters (the empty list stands for the `or 0` default). -/
def decVal (ds : List Char) : Nat := ds.foldl (fun a c => 10 * a + (c.toNat - 48)) 0

/-- All-digit check plus decimal value: `int(s)` for an unsigned literal. -/
def natOfDigits : List Char → Option Nat
  | [] => none
  | ds => if ds.all Char.isDigit then some (decVal ds) else none

/-- Python `int(str)`: strip surrounding whitespace, allow one sign, then
require a non-empty digit run.  Any other shape raises `ValueError`,
modelled by `none`. -/
def pyInt (s : List Char) : Option Int :=
  let t := (s.dropWhile isWs).reverse.dropWhile isWs |>.reverse
  match t with
  | '+' :: ds => (natOfDigits ds).map Int.ofNat
  | '-' :: ds => (natOfDigits ds).map (fun n => -(n : Int))
  | ds => (natOfDigits ds).map Int.ofNat

/-! ## Wall-clock model -/

/-- A `datetime.datetime` as the program uses it: an abstract day index
(standing for the calendar date) plus hour, minute and second.  Sub-second
precision is not modelled; the program only sets `second=0` and compares. -/
structure DateTime where
  day : Nat
  hour : Nat
  minute : Nat
  second : Nat
deriving DecidableEq, Repr

/-- Total-order key for datetime comparison. -/
def dtKey (d : DateTime) : Nat :=
  ((d.day * 24 + d.hour) * 60 + d.minute) * 60 + d.second

/-- `a < b` on datetimes. -/
def dtLt (a b : DateTime) : Bool := dtKey a < dtKey b

/-- Zero-padded two-digit rendering, as in `strftime` numeric fields. -/
def pad2 (n : Nat) : String := if n < 10 then "0" ++ toString n else toString n

/-- `strftime("%I")`: 12-hour clock hour, 01..12. -/
def hour12 (h : Nat) : Nat := if h % 12 == 0 then 12 else h % 12

/-- `now.strftime("The time is %I:%M %p.")` (C locale AM/PM). -/
def timeString (d : DateTime) : String :=
  "The time is " ++ pad2 (hour12 d.hour) ++ ":" ++ pad2 d.minute ++ " " ++
    (if d.hour < 12 then "AM" else "PM") ++ "."

/-- `datetime.now().date().isoformat()`, with the abstract day index
standing in for the calendar date. -/
def dateIso (d : DateTime) : String := "day" ++ toString d.day

/-- `rem_time.isoformat()`, again with the abstract day index for the date
part. -/
def dtIso (d : DateTime) : String :=
  "day" ++ toString d.day ++ "T" ++ pad2 d.hour ++ ":" ++ pad2 d.minute ++ ":" ++ pad2 d.second

/-! ## Voice output adapter (`tts`) -/

/-- Which text-to-speech backends exist (capability flags computed once at
startup in the source). -/
structure TtsEnv where
  hasTermuxTts : Bool
  hasEngine : Bool
deriving DecidableEq, Repr

/-- Observable effects of one `tts` call. -/
inductive TtsEff where
  | popenSpeak (text : String)
  | sleptApprox
  | engineSay (text : String)
  | engineWait
  | engineStartLoop
  | printed (text : String)
deriving DecidableEq, Repr

/-- The `tts(text, block=False)` function: `None` returns immediately;
otherwise the Termux backend, then the pyttsx3 engine, then a console
print are tried in that order. -/
def tts (env : TtsEnv) (text : Option String) (block : Bool) : List TtsEff :=
  match text with
  | none => []
  | some t =>
    if env.hasTermuxTts then
      [TtsEff.popenSpeak t] ++ (if block then [TtsEff.sleptApprox] else [])
    else if env.hasEngine then
      [TtsEff.engineSay t] ++ (if block then [TtsEff.engineWait] else [TtsEff.engineStartLoop])
    else
      [TtsEff.printed ("[TTS unavailable] " ++ t)]

/-! ## Observable events of the dispatcher -/

/-- One observable effect of a `handle_command` run, in order.  `said m`
models `say_and_print(m)` (a console print of `Assistant: m` together with
a `tts(m)` call); `printed` models a bare `print`; `openedUrl` / `openedUri`
model `open_url` / `open_file_or_uri`; `calledNumber` and `sentSms` model
the Termux subprocess invocations; `wroteNote` models the file write of
`add_note`; `scheduled` models `schedule_reminder` starting a timer
thread; `exited c` models `sys.exit(c)`. -/
inductive Event where
  | printed (msg : String)
  | said (msg : String)
  | openedUrl (url : String)
  | openedUri (uri : String)
  | calledNumber (number : String)
  | sentSms (number message : String)
  | wroteNote (path contents : String)
  | scheduled (fireAt : DateTime) (message : String)
  | exited (code : Nat)
deriving DecidableEq, Repr

/-- Ambient configuration of one dispatch: capability flags fixed at
startup, the wikipedia module (present or not) with its summary function
(`query`, `sentences` → summary or exception text), and the current
wall-clock time. -/
structure Env where
  hasTermuxCall : Bool
  hasTermuxSms : Bool
  hasWikipedia : Bool
  wikiSummary : String → Nat → Except String String
  now : DateTime

/-- Pop one `listen_once()` result from the input queue; an exhausted
queue behaves like a capture that recognized nothing. -/
def popQ : List (Option String) → Option String × List (Option String)
  | [] => (none, [])
  | h :: t => (h, t)

/-! ## Note store -/

/-- The notes directory (`os.path.expanduser("~/assistant_notes")`,
modelled by the literal path). -/
def NOTES_DIR : String := "~/assistant_notes"

/-- `datetime.now().strftime("note_%Y%m%d_%H%M%S.txt")`: the abstract day
index stands in for `%Y%m%d`. -/
def noteFileName (now : DateTime) : String :=
  "note_" ++ toString now.day ++ "_" ++ pad2 now.hour ++ pad2 now.minute ++ pad2 now.second ++ ".txt"

/-- `os.path.join(NOTES_DIR, ...)`. -/
def notePath (now : DateTime) : String := NOTES_DIR ++ "/" ++ noteFileName now

/-- Filesystem state as the note store sees it: whether the notes
directory exists, and file contents by path. -/
structure Fs where
  hasNotesDir : Bool
  contents : String → Option String

/-- `ensure_notes_dir()`: `os.makedirs(NOTES_DIR, exist_ok=True)` creates
the directory when absent and is a no-op when present. -/
def ensure_notes_dir (fs : Fs) : Fs := { fs with hasNotesDir := true }

/-- `add_note(text)`: ensure the directory, then overwrite the
timestamp-named file with `text + "\n"` and return its path. -/
def add_note (fs : Fs) (now : DateTime) (text : String) : Fs × String :=
  let fs1 := ensure_notes_dir fs
  let fname := notePath now
  ({ fs1 with contents := fun p => if p = fname then some (text ++ "\n") else fs1.contents p },
   fname)

/-! ## Reminder time parsing -/

/-- The exceptions the reminder `try` block can raise.  `nameErr` is the
`NameError` raised by any use of `timedelta`, which line 30 of the source
never imports (`from datetime import datetime` only); `valueErr` covers
`int()` parse failures, unpacking a `split(":")` of the wrong arity, and
out-of-range arguments to `datetime.replace`. -/
inductive PErr where
  | nameErr
  | valueErr
deriving DecidableEq, Repr

/-- The `try` block of the reminder dialogue: given `now` and the heard
`when` phrase, produce `rem_time` (`Except.ok`) or the caught exception.
`Except.ok none` means the block completed with `rem_time` still `None`. -/
def parseWhen (now : DateTime) (when : String) : Except PErr (Option DateTime) :=
  if strPref when "in " then
    let rest := pyStrip (strDropL when 3)
    if strSub rest "minute" then
      Except.error PErr.nameErr
    else if strSub rest "hour" then
      Except.error PErr.nameErr
    else
      Except.ok none
  else if strPref when "at " then
    let tstr := afterFirstSpaceS when
    match splitCh ':' tstr.toList with
    | [a, b] =>
      match pyInt a, pyInt b with
      | some hh, some mm =>
        if 0 ≤ hh ∧ hh < 24 ∧ 0 ≤ mm ∧ mm < 60 then
          let rt : DateTime := { now with hour := hh.toNat, minute := mm.toNat, second := 0 }
          if dtLt rt now then Except.error PErr.nameErr
          else Except.ok (some rt)
        else Except.error PErr.valueErr
      | _, _ => Except.error PErr.valueErr
    | _ => Except.error PErr.valueErr
  else
    Except.ok none

/-- The value bound to `n` in the `"in ..."` branch of the reminder parse,
before the `timedelta` call raises: `int("".join(ch for ch in when if
ch.isdigit()) or 0)`, applied to the stripped remainder of the phrase.
Returns `none` when the branch does not bind `n` at all. -/
def whenN (when : String) : Option Nat :=
  if strPref when "in " then
    let rest := pyStrip (strDropL when 3)
    if strSub rest "minute" then some (decVal (rest.toList.filter Char.isDigit))
    else if strSub rest "hour" then some (decVal (rest.toList.filter Char.isDigit))
    else none
  else none

/-! ## Intent dispatcher -/

/-- Rule 1 test: `any(ww in txt for ww in ("exit", "quit", "stop", "bye"))`. -/
def stopHit (txt : String) : Bool :=
  strSub txt "exit" || strSub txt "quit" || strSub txt "stop" || strSub txt "bye"

/-- The query the Wikipedia rule builds from the matched text:
`query = txt.replace("wikipedia", "").strip()`, then when the result still
carries a leading `"who is "` or `"what is "`, keep
`" ".join(query.split(" ")[2:])`. -/
def wikiQuery (txt : String) : String :=
  let query0 := pyStrip (stripWikiS txt)
  if strPref query0 "who is " || strPref query0 "what is " then
    String.mk (joinSp ((splitCh ' ' query0.toList).drop 2))
  else query0

/-- The dispatch outcome type: event trace, remaining listen queue,
updated `REMINDERS` list. -/
def Outcome : Type :=
  List Event × List (Option String) × List (DateTime × String)

/-- Rule 5 body ("open "/"launch "): open as URL when the target starts
with "http"; else, when it looks like a bare domain (has "." and no
space), prepend "http://"; else hand to `termux-open` / the browser. -/
def ruleOpen (txt : String) (ev0 : List Event) (queue : List (Option String))
    (rems : List (DateTime × String)) : Outcome :=
  let target := afterFirstSpaceS txt
  let ev1 := ev0 ++ [Event.said ("Opening " ++ target)]
  if strPref target "http" then
    (ev1 ++ [Event.openedUrl target], queue, rems)
  else if strSub target "." && !(strSub target " ") then
    (ev1 ++ [Event.openedUrl ("http://" ++ target)], queue, rems)
  else
    (ev1 ++ [Event.openedUri target], queue, rems)

/-- Rule 6 body ("note "/"take note"): inline remainder of the original
(unlowered) text, or a follow-up listen; empty content is not saved. -/
def ruleNote (env : Env) (t txt : String) (ev0 : List Event) (queue : List (Option String))
    (rems : List (DateTime × String)) : Outcome :=
  if strPref txt "note " then
    let noteText := afterFirstSpaceS t
    if noteText ≠ "" then
      (ev0 ++ [Event.wroteNote (notePath env.now) (noteText ++ "\n"),
               Event.said ("Saved note to " ++ notePath env.now)], queue, rems)
    else
      (ev0 ++ [Event.said "No note recorded."], queue, rems)
  else
    let ev1 := ev0 ++ [Event.said "What would you like me to note?"]
    let (r, q1) := popQ queue
    let noteText := r.getD ""
    if noteText ≠ "" then
      (ev1 ++ [Event.wroteNote (notePath env.now) (noteText ++ "\n"),
               Event.said ("Saved note to " ++ notePath env.now)], q1, rems)
    else
      (ev1 ++ [Event.said "No note recorded."], q1, rems)

/-- Rule 7 body ("remind me"): two follow-up listens, then the guarded
time parse; on success `schedule_reminder` appends to `REMINDERS`. -/
def ruleRemind (env : Env) (ev0 : List Event) (queue : List (Option String))
    (rems : List (DateTime × String)) : Outcome :=
  let ev1 := ev0 ++
    [Event.said "Okay, when should I remind you? (say in 10 minutes / at 18:30 / in 1 hour)"]
  let (w, q1) := popQ queue
  let when := w.getD ""
  let ev2 := ev1 ++ [Event.said "What is the reminder message?"]
  let (m, q2) := popQ q1
  let message := m.getD "Reminder"
  match parseWhen env.now when with
  | Except.error _ =>
    (ev2 ++ [Event.printed "Reminder parse error",
             Event.said "Couldn\x27t parse time. Reminder not set."], q2, rems)
  | Except.ok none =>
    (ev2 ++ [Event.said "Couldn\x27t parse time. Reminder not set."], q2, rems)
  | Except.ok (some rt) =>
    (ev2 ++ [Event.scheduled rt message,
             Event.said ("Reminder set for " ++ dtIso rt)], q2, rems ++ [(rt, message)])

/-- Rule 8 body ("call "): `make_call` runs the dialer subprocess only
when the capability flag is set; otherwise it returns `False` and the
unavailability notice is spoken. -/
def ruleCall (env : Env) (txt : String) (ev0 : List Event) (queue : List (Option String))
    (rems : List (DateTime × String)) : Outcome :=
  let number := pyStrip (afterFirstSpaceS txt)
  if env.hasTermuxCall then
    (ev0 ++ [Event.calledNumber number, Event.said ("Calling " ++ number)], queue, rems)
  else
    (ev0 ++ [Event.said "Call feature unavailable on this device."], queue, rems)

/-- Rule 9 body ("send sms to "/"send message to "): the number is the
fourth space-delimited token; one follow-up listen for the body; sending
happens only when the body is non-empty and the capability is present. -/
def ruleSms (env : Env) (txt : String) (ev0 : List Event) (queue : List (Option String))
    (rems : List (DateTime × String)) : Outcome :=
  let parts := splitSpMax 3 txt.toList
  if parts.length ≥ 4 then
    let number := String.mk (parts.getD 3 [])
    let ev1 := ev0 ++ [Event.said "What is the message?"]
    let (m, q1) := popQ queue
    let message := m.getD ""
    if message ≠ "" then
      if env.hasTermuxSms then
        (ev1 ++ [Event.sentSms number message, Event.said "Message sent."], q1, rems)
      else
        (ev1 ++ [Event.said "Unable to send message."], q1, rems)
    else
      (ev1 ++ [Event.said "Unable to send message."], q1, rems)
  else
    (ev0 ++ [Event.said "Please say the command like: send sms to +91xxxxxxxxxx"],
     queue, rems)

/-- Rule 10 body ("wikipedia"/"who is "/"what is "): with the wikipedia
module present, ask for a 2-sentence summary and speak it, or speak the
exception text on failure; with the module absent, speak a notice and
open the Wikipedia article URL. -/
def ruleWiki (env : Env) (txt : String) (ev0 : List Event) (queue : List (Option String))
    (rems : List (DateTime × String)) : Outcome :=
  let query := wikiQuery txt
  if env.hasWikipedia then
    match env.wikiSummary query 2 with
    | Except.ok s => (ev0 ++ [Event.said s], queue, rems)
    | Except.error e =>
      (ev0 ++ [Event.said ("Couldn\x27t fetch Wikipedia summary: " ++ e)], queue, rems)
  else
    (ev0 ++ [Event.said "Wikipedia library not installed. Opening web search.",
             Event.openedUrl ("https://en.wikipedia.org/wiki/" ++ replSpace '_' query)],
     queue, rems)

/-- `handle_command(text)`.  Inputs: the environment, the queue of future
`listen_once()` results, the heard text, and the process-wide `REMINDERS`
list.  Output: the event trace, the remaining queue, and the updated
`REMINDERS` list.  The trace of a branch ends where the Python function
returns (or exits).  The rule guard order is exactly the source order;
the bodies of the branching rules are the `rule...` functions above. -/
def handle_command (env : Env) (queue : List (Option String)) (text : Option String)
    (rems : List (DateTime × String)) : Outcome :=
  match text with
  | none => ([], queue, rems)
  | some t =>
    if t = "" then ([], queue, rems)
    else
      let txt := pyStrip (pyLower t)
      let ev0 := [Event.printed ("Heard: " ++ txt)]
      if stopHit txt then
        (ev0 ++ [Event.said "Goodbye! Stopping assistant.", Event.exited 0], queue, rems)
      else if strSub txt "time" then
        (ev0 ++ [Event.said (timeString env.now)], queue, rems)
      else if strSub txt "date" then
        (ev0 ++ [Event.said ("Today\x27s date is " ++ dateIso env.now)], queue, rems)
      else if strPref txt "search " || strPref txt "google " then
        let q := afterFirstSpaceS txt
        (ev0 ++ [Event.said ("Searching the web for " ++ q),
                 Event.openedUrl ("https://www.google.com/search?q=" ++ replSpace '+' q)],
         queue, rems)
      else if strPref txt "open " || strPref txt "launch " then
        ruleOpen txt ev0 queue rems
      else if strPref txt "note " || strSub txt "take note" then
        ruleNote env t txt ev0 queue rems
      else if strSub txt "remind me" then
        ruleRemind env ev0 queue rems
      else if strPref txt "call " then
        ruleCall env txt ev0 queue rems
      else if strPref txt "send sms to " || strPref txt "send message to " then
        ruleSms env txt ev0 queue rems
      else if strSub txt "wikipedia" || strPref txt "who is " || strPref txt "what is " then
        ruleWiki env txt ev0 queue rems
      else
        (ev0 ++ [Event.said ("I didn\x27t catch a specific command â€” searching the web for: " ++ txt),
                 Event.openedUrl ("https://www.google.com/search?q=" ++ replSpace '+' txt)],
         queue, rems)

/-- The reminders a trace schedules, in order. -/
def scheduledOf (evs : List Event) : List (DateTime × String) :=
  evs.filterMap fun e =>
    match e with
    | Event.scheduled d m => some (d, m)
    | _ => none

/-- Is this event an attempt to place a call? -/
def isCallEv : Event → Bool
  | Event.calledNumber _ => true
  | _ => false

/-- Is this event an open of a URL or URI? -/
def isOpenEv : Event → Bool
  | Event.openedUrl _ => true
  | Event.openedUri _ => true
  | _ => false

/-- The URLs a trace opens via `open_url`, in order. -/
def openedUrlsOf (evs : List Event) : List String :=
  evs.filterMap fun e =>
    match e with
    | Event.openedUrl u => some u
    | _ => none

/-! ## Wake-word loop -/

/-- `WAKE_WORDS = ("hey jarvis", "ok jarvis", "jarvis")`. -/
def WAKE_WORDS : List String := ["hey jarvis", "ok jarvis", "jarvis"]

/-- Rule taken by one iteration of `main_loop` for a recognized phrase. -/
inductive LoopBranch where
  | wake
  | inlineCmd (cmd : Option String)
  | ignore
deriving DecidableEq, Repr

/-- One `main_loop` iteration on a recognized (non-empty) phrase: test the
wake words by containment first; otherwise the direct-address branch
(leading `"assistant"` or `"jarvis"`) dispatches the remainder after the
first space; otherwise the phrase is ignored. -/
def main_loop_step (spoken : String) : LoopBranch :=
  let s := pyLower spoken
  if WAKE_WORDS.any (fun ww => strSub s ww) then
    LoopBranch.wake
  else if strPref s "assistant" || strPref s "jarvis" then
    LoopBranch.inlineCmd (if strSub s " " then some (afterFirstSpaceS s) else none)
  else
    LoopBranch.ignore

/-! ## Concrete environments used to evaluate the model -/

/-- A default environment: no Termux call/SMS capability, wikipedia module
absent, clock at noon of an arbitrary day. -/
def envStd : Env :=
  { hasTermuxCall := false, hasTermuxSms := false, hasWikipedia := false,
    wikiSummary := fun _ _ => Except.error "no network", now := ⟨0, 12, 0, 0⟩ }

/-- Same, with the clock at 19:00 (after 18:30). -/
def envEvening : Env := { envStd with now := ⟨0, 19, 0, 0⟩ }

/-- Wikipedia module present but every lookup raises. -/
def envWikiFail : Env :=
  { envStd with hasWikipedia := true, wikiSummary := fun _ _ => Except.error "HTTPError" }

/-- An empty filesystem without the notes directory. -/
def fs0 : Fs := { hasNotesDir := false, contents := fun _ => none }

/-! ## Helper lemmas -/

/-- A leading match is in particular a substring match. -/
lemma listPref_listSub (p s : List Char) (h : listPref p s = true) : listSub p s = true := by
  cases s with
  | nil =>
    cases p with
    | nil => rfl
    | cons a as => simp [listPref] at h
  | cons c r => simp [listSub, h]

/-- C10: any recognized phrase whose lowercasing starts with "jarvis"
contains the wake word "jarvis", so the wake-word branch of the main loop
is taken and the inline-dispatch branch is unreachable for it. -/
theorem jarvis_phrase_takes_wake_branch (s : String)
    (h : strPref (pyLower s) "jarvis" = true) : main_loop_step s = LoopBranch.wake := by
  have hsub : strSub (pyLower s) "jarvis" = true := listPref_listSub _ _ h
  simp [main_loop_step, WAKE_WORDS, hsub]

/-- Witness for C10 at the phrase "jarvis what is the weather". -/
theorem jarvis_phrase_takes_wake_branch_w :
    main_loop_step "jarvis what is the weather" = LoopBranch.wake :=
  jarvis_phrase_takes_wake_branch "jarvis what is the weather" (by decide)

/-- C4: an utterance containing a stop word makes `handle_command` speak a
farewell and exit with status 0, whatever else the utterance contains; the
trace ends at the exit, so no other rule (in particular not the time rule)
acts. -/
theorem stop_word_exits (env : Env) (q : List (Option String))
    (rems : List (DateTime × String)) (t : String) (h0 : t ≠ "")
    (h1 : stopHit (pyStrip (pyLower t)) = true) :
    handle_command env q (some t) rems =
      ([Event.printed ("Heard: " ++ pyStrip (pyLower t)),
        Event.said "Goodbye! Stopping assistant.", Event.exited 0], q, rems) := by
  simp [handle_command, h0, h1]

/-- Witness for C4 at "stop the time", which contains both "stop" and
"time" and triggers the stop rule, not the time rule. -/
theorem stop_word_exits_w :
    handle_command envStd [] (some "stop the time") [] =
      ([Event.printed ("Heard: " ++ pyStrip (pyLower "stop the time")),
        Event.said "Goodbye! Stopping assistant.", Event.exited 0], [], []) :=
  stop_word_exits envStd [] [] "stop the time" (by decide) (by decide)

/-- C8 counterexample: `tts` on the empty string is not a no-op — with no
backend it prints the placeholder line, and with the Termux backend it
spawns a TTS subprocess on the empty text.  Only `None` short-circuits. -/
theorem tts_empty_not_noop :
    tts ⟨false, false⟩ (some "") false = [TtsEff.printed "[TTS unavailable] "] ∧
    tts ⟨true, false⟩ (some "") false = [TtsEff.popenSpeak ""] ∧
    tts ⟨false, false⟩ (some "") false ≠ [] := by
  refine ⟨rfl, rfl, ?_⟩
  decide

/-- C8 amended: a `None` argument makes `tts` a no-op, but an empty string
is not special-cased — it is handed to whichever backend is selected (or
printed), so the effect list is never empty for it. -/
theorem tts_none_noop_empty_passed :
    (∀ env b, tts env none b = []) ∧ (∀ env b, tts env (some "") b ≠ []) := by
  constructor
  · intro env b
    rfl
  · intro env b
    unfold tts
    by_cases h1 : env.hasTermuxTts <;> by_cases h2 : env.hasEngine <;> cases b <;>
      simp [h1, h2]

/-- Witness for the amended C8 at the print-only backend. -/
theorem tts_none_noop_empty_passed_w :
    tts ⟨false, false⟩ none false = [] ∧
    (tts ⟨false, false⟩ (some "") false = [] → False) :=
  ⟨tts_none_noop_empty_passed.1 ⟨false, false⟩ false,
   fun h => tts_none_noop_empty_passed.2 ⟨false, false⟩ false h⟩

/-- C2: in the "in ... minute(s)" and "in ... hour(s)" branches, the value
bound to `n` is the decimal reading of the concatenation of all digit
characters anywhere in the stripped remainder of the phrase. -/
theorem reminder_digit_concat (when : String)
    (h1 : strPref when "in " = true)
    (h2 : strSub (pyStrip (strDropL when 3)) "minute" = true ∨
          (strSub (pyStrip (strDropL when 3)) "minute" = false ∧
           strSub (pyStrip (strDropL when 3)) "hour" = true)) :
    whenN when = some (decVal ((pyStrip (strDropL when 3)).toList.filter Char.isDigit)) := by
  rcases h2 with h2 | ⟨h2, h3⟩
  · simp [whenN, h1, h2]
  · simp [whenN, h1, h2, h3]

/-- Witness for C2: the phrase "in 1 0 minutes" yields n = 10. -/
theorem reminder_digit_concat_w : whenN "in 1 0 minutes" = some 10 :=
  (reminder_digit_concat "in 1 0 minutes" (by decide) (Or.inl (by decide))).trans (by decide)

/-- C6: `add_note` makes the notes directory exist (directory creation is
idempotent), writes the timestamp-named file under the notes directory
with contents exactly the text plus one newline, returns that path, and
touches no other file. -/
theorem add_note_contract (fs : Fs) (now : DateTime) (text : String) :
    (add_note fs now text).1.hasNotesDir = true ∧
    (add_note fs now text).1.contents (add_note fs now text).2 = some (text ++ "\n") ∧
    (add_note fs now text).2 = NOTES_DIR ++ "/" ++ noteFileName now ∧
    ensure_notes_dir (ensure_notes_dir fs) = ensure_notes_dir fs ∧
    (∀ p, p ≠ (add_note fs now text).2 → (add_note fs now text).1.contents p = fs.contents p) := by
  refine ⟨rfl, ?_, rfl, rfl, ?_⟩
  · simp [add_note]
  · intro p hp
    have hp2 : p ≠ notePath now := hp
    simp [add_note, hp2, ensure_notes_dir]

/-- Witness for C6: noting "buy milk" stores exactly "buy milk" plus a
newline at the returned path. -/
theorem add_note_contract_w :
    (add_note fs0 ⟨0, 12, 0, 0⟩ "buy milk").1.contents
      (add_note fs0 ⟨0, 12, 0, 0⟩ "buy milk").2 = some "buy milk\n" :=
  ((add_note_contract fs0 ⟨0, 12, 0, 0⟩ "buy milk").2.1).trans (by decide)

/-- C1: evaluation of the reminder dialogue.  Because line 30 of the
source imports only `datetime` and never `timedelta`, the "in 10 minutes"
and "in 1 hour" answers raise a `NameError` at `now + timedelta(...)`,
which the `except` catches: no reminder is scheduled and the failure
notice is spoken — contradicting the documented T+10min / T+60min firing.
"at 18:30" works when the current time is before 18:30, but after 18:30
the roll-forward `rem_time + timedelta(days=1)` raises the same
`NameError`, so no reminder is scheduled then either.  An unparseable
phrase ("tomorrow") behaves as documented. -/
theorem reminder_dialogue_runs :
    handle_command envStd [some "in 10 minutes", some "check the oven"]
        (some "remind me to check the oven") [] =
      ([Event.printed "Heard: remind me to check the oven",
        Event.said "Okay, when should I remind you? (say in 10 minutes / at 18:30 / in 1 hour)",
        Event.said "What is the reminder message?",
        Event.printed "Reminder parse error",
        Event.said "Couldn\x27t parse time. Reminder not set."], [], []) ∧
    handle_command envStd [some "in 1 hour", some "tea"] (some "remind me") [] =
      ([Event.printed "Heard: remind me",
        Event.said "Okay, when should I remind you? (say in 10 minutes / at 18:30 / in 1 hour)",
        Event.said "What is the reminder message?",
        Event.printed "Reminder parse error",
        Event.said "Couldn\x27t parse time. Reminder not set."], [], []) ∧
    handle_command envStd [some "at 18:30", some "call mom"] (some "remind me") [] =
      ([Event.printed "Heard: remind me",
        Event.said "Okay, when should I remind you? (say in 10 minutes / at 18:30 / in 1 hour)",
        Event.said "What is the reminder message?",
        Event.scheduled ⟨0, 18, 30, 0⟩ "call mom",
        Event.said "Reminder set for day0T18:30:00"], [],
       [(⟨0, 18, 30, 0⟩, "call mom")]) ∧
    handle_command envEvening [some "at 18:30", some "call mom"] (some "remind me") [] =
      ([Event.printed "Heard: remind me",
        Event.said "Okay, when should I remind you? (say in 10 minutes / at 18:30 / in 1 hour)",
        Event.said "What is the reminder message?",
        Event.printed "Reminder parse error",
        Event.said "Couldn\x27t parse time. Reminder not set."], [], []) ∧
    handle_command envStd [some "tomorrow", some "x"] (some "remind me") [] =
      ([Event.printed "Heard: remind me",
        Event.said "Okay, when should I remind you? (say in 10 minutes / at 18:30 / in 1 hour)",
        Event.said "What is the reminder message?",
        Event.said "Couldn\x27t parse time. Reminder not set."], [], []) :=
  ⟨rfl, rfl, rfl, rfl, rfl⟩

/-- C5 counterexample: for the utterance "play some music " (one trailing
space) the single search-open query is built from the lowercased AND
stripped text, so it differs from the claimed "lowercased utterance with
spaces replaced by plus" reading. -/
theorem search_fallback_query_stripped :
    openedUrlsOf (handle_command envStd [] (some "play some music ") []).1 =
      ["https://www.google.com/search?q=play+some+music"] ∧
    replSpace '+' (pyLower "play some music ") = "play+some+music+" ∧
    ("https://www.google.com/search?q=play+some+music" : String) ≠
      "https://www.google.com/search?q=" ++ replSpace '+' (pyLower "play some music ") := by
  refine ⟨rfl, rfl, ?_⟩
  decide

/-- C5 amended: a non-empty utterance matching no dispatch rule produces
exactly the not-understood acknowledgment followed by one web-search open
whose query is the lowercased, whitespace-stripped utterance with each
space replaced by "+". -/
theorem default_fallback_single_search (env : Env) (q : List (Option String))
    (rems : List (DateTime × String)) (t : String) (h0 : t ≠ "")
    (h1 : stopHit (pyStrip (pyLower t)) = false)
    (h2 : strSub (pyStrip (pyLower t)) "time" = false)
    (h3 : strSub (pyStrip (pyLower t)) "date" = false)
    (h4 : strPref (pyStrip (pyLower t)) "search " = false)
    (h5 : strPref (pyStrip (pyLower t)) "google " = false)
    (h6 : strPref (pyStrip (pyLower t)) "open " = false)
    (h7 : strPref (pyStrip (pyLower t)) "launch " = false)
    (h8 : strPref (pyStrip (pyLower t)) "note " = false)
    (h9 : strSub (pyStrip (pyLower t)) "take note" = false)
    (h10 : strSub (pyStrip (pyLower t)) "remind me" = false)
    (h11 : strPref (pyStrip (pyLower t)) "call " = false)
    (h12 : strPref (pyStrip (pyLower t)) "send sms to " = false)
    (h13 : strPref (pyStrip (pyLower t)) "send message to " = false)
    (h14 : strSub (pyStrip (pyLower t)) "wikipedia" = false)
    (h15 : strPref (pyStrip (pyLower t)) "who is " = false)
    (h16 : strPref (pyStrip (pyLower t)) "what is " = false) :
    handle_command env q (some t) rems =
      ([Event.printed ("Heard: " ++ pyStrip (pyLower t)),
        Event.said ("I didn\x27t catch a specific command â€” searching the web for: " ++
          pyStrip (pyLower t)),
        Event.openedUrl ("https://www.google.com/search?q=" ++
          replSpace '+' (pyStrip (pyLower t)))], q, rems) := by
  simp [handle_command, h0, h1, h2, h3, h4, h5, h6, h7, h8, h9, h10, h11, h12, h13, h14,
    h15, h16]

/-- Witness for the amended C5 at "play some music". -/
theorem default_fallback_single_search_w :
    handle_command envStd [] (some "play some music") [] =
      ([Event.printed ("Heard: " ++ pyStrip (pyLower "play some music")),
        Event.said ("I didn\x27t catch a specific command â€” searching the web for: " ++
          pyStrip (pyLower "play some music")),
        Event.openedUrl ("https://www.google.com/search?q=" ++
          replSpace '+' (pyStrip (pyLower "play some music")))], [], []) :=
  default_fallback_single_search envStd [] [] "play some music" (by decide) (by decide)
    (by decide) (by decide) (by decide) (by decide) (by decide) (by decide) (by decide)
    (by decide) (by decide) (by decide) (by decide) (by decide) (by decide) (by decide)
    (by decide)

/-- C7 counterexample: with the call capability absent, the utterance
"call timekeeper" starts with "call " but contains "time", so the
higher-priority time rule answers and the unavailability notice is never
produced — the claim does not hold for every utterance starting with
"call ". -/
theorem call_rule_not_always_reported :
    (handle_command envStd [] (some "call timekeeper") []).1 =
      [Event.printed "Heard: call timekeeper", Event.said "The time is 12:00 PM."] ∧
    Event.said "Call feature unavailable on this device." ∉
      (handle_command envStd [] (some "call timekeeper") []).1 ∧
    strPref (pyStrip (pyLower "call timekeeper")) "call " = true ∧
    envStd.hasTermuxCall = false := by
  refine ⟨rfl, by decide, rfl, rfl⟩

/-- The open rule never attempts a call. -/
lemma ruleOpen_noCall (txt msg : String) (q : List (Option String))
    (rems : List (DateTime × String)) :
    ((ruleOpen txt [Event.printed msg] q rems).1.all fun e => !(isCallEv e)) = true := by
  unfold ruleOpen
  dsimp only
  repeat' split
  all_goals rfl

/-- The note rule never attempts a call. -/
lemma ruleNote_noCall (env : Env) (t txt msg : String) (q : List (Option String))
    (rems : List (DateTime × String)) :
    ((ruleNote env t txt [Event.printed msg] q rems).1.all fun e => !(isCallEv e)) = true := by
  unfold ruleNote
  dsimp only
  repeat' split
  all_goals rfl

/-- The remind rule never attempts a call. -/
lemma ruleRemind_noCall (env : Env) (msg : String) (q : List (Option String))
    (rems : List (DateTime × String)) :
    ((ruleRemind env [Event.printed msg] q rems).1.all fun e => !(isCallEv e)) = true := by
  unfold ruleRemind
  dsimp only
  repeat' split
  all_goals rfl

/-- With the capability absent, the call rule places no call. -/
lemma ruleCall_noCall (env : Env) (txt msg : String) (q : List (Option String))
    (rems : List (DateTime × String)) (hc : env.hasTermuxCall = false) :
    ((ruleCall env txt [Event.printed msg] q rems).1.all fun e => !(isCallEv e)) = true := by
  unfold ruleCall
  rw [hc]
  rfl

/-- The sms rule never attempts a call. -/
lemma ruleSms_noCall (env : Env) (txt msg : String) (q : List (Option String))
    (rems : List (DateTime × String)) :
    ((ruleSms env txt [Event.printed msg] q rems).1.all fun e => !(isCallEv e)) = true := by
  unfold ruleSms
  dsimp only
  repeat' split
  all_goals rfl

/-- The wikipedia rule never attempts a call. -/
lemma ruleWiki_noCall (env : Env) (txt msg : String) (q : List (Option String))
    (rems : List (DateTime × String)) :
    ((ruleWiki env txt [Event.printed msg] q rems).1.all fun e => !(isCallEv e)) = true := by
  unfold ruleWiki
  dsimp only
  repeat' split
  all_goals rfl

/-- C7 amended: when the call capability is absent, no run of
`handle_command` ever attempts to place a call, and every utterance
starting with "call " that is not captured by a higher-priority rule
(stop words, "time", "date", the search/open/note/reminder triggers)
reports the call feature as unavailable. -/
theorem call_capability_gating :
    (∀ (env : Env) q rems t, env.hasTermuxCall = false →
      ((handle_command env q t rems).1.all fun e => !(isCallEv e)) = true) ∧
    (∀ (env : Env) q rems (t : String), env.hasTermuxCall = false → t ≠ "" →
      stopHit (pyStrip (pyLower t)) = false →
      strSub (pyStrip (pyLower t)) "time" = false →
      strSub (pyStrip (pyLower t)) "date" = false →
      strPref (pyStrip (pyLower t)) "search " = false →
      strPref (pyStrip (pyLower t)) "google " = false →
      strPref (pyStrip (pyLower t)) "open " = false →
      strPref (pyStrip (pyLower t)) "launch " = false →
      strPref (pyStrip (pyLower t)) "note " = false →
      strSub (pyStrip (pyLower t)) "take note" = false →
      strSub (pyStrip (pyLower t)) "remind me" = false →
      strPref (pyStrip (pyLower t)) "call " = true →
      handle_command env q (some t) rems =
        ([Event.printed ("Heard: " ++ pyStrip (pyLower t)),
          Event.said "Call feature unavailable on this device."], q, rems)) := by
  constructor
  · intro env q rems t hc
    cases t with
    | none => rfl
    | some s =>
      suffices h : ∀ res, handle_command env q (some s) rems = res →
          (res.1.all fun e => !(isCallEv e)) = true from h _ rfl
      intro res hres
      unfold handle_command at hres
      dsimp only at hres
      by_cases c1 : s = ""
      · rw [if_pos c1] at hres
        rw [← hres]
        rfl
      rw [if_neg c1] at hres
      by_cases c2 : stopHit (pyStrip (pyLower s)) = true
      · rw [if_pos c2] at hres
        rw [← hres]
        rfl
      rw [if_neg c2] at hres
      by_cases c3 : strSub (pyStrip (pyLower s)) "time" = true
      · rw [if_pos c3] at hres
        rw [← hres]
        rfl
      rw [if_neg c3] at hres
      by_cases c4 : strSub (pyStrip (pyLower s)) "date" = true
      · rw [if_pos c4] at hres
        rw [← hres]
        rfl
      rw [if_neg c4] at hres
      by_cases c5 : (strPref (pyStrip (pyLower s)) "search " ||
          strPref (pyStrip (pyLower s)) "google ") = true
      · rw [if_pos c5] at hres
        rw [← hres]
        rfl
      rw [if_neg c5] at hres
      by_cases c6 : (strPref (pyStrip (pyLower s)) "open " ||
          strPref (pyStrip (pyLower s)) "launch ") = true
      · rw [if_pos c6] at hres
        rw [← hres]
        exact ruleOpen_noCall _ _ _ _
      rw [if_neg c6] at hres
      by_cases c7 : (strPref (pyStrip (pyLower s)) "note " ||
          strSub (pyStrip (pyLower s)) "take note") = true
      · rw [if_pos c7] at hres
        rw [← hres]
        exact ruleNote_noCall _ _ _ _ _ _
      rw [if_neg c7] at hres
      by_cases c8 : strSub (pyStrip (pyLower s)) "remind me" = true
      · rw [if_pos c8] at hres
        rw [← hres]
        exact ruleRemind_noCall _ _ _ _
      rw [if_neg c8] at hres
      by_cases c9 : strPref (pyStrip (pyLower s)) "call " = true
      · rw [if_pos c9] at hres
        rw [← hres]
        exact ruleCall_noCall _ _ _ _ _ hc
      rw [if_neg c9] at hres
      by_cases c10 : (strPref (pyStrip (pyLower s)) "send sms to " ||
          strPref (pyStrip (pyLower s)) "send message to ") = true
      · rw [if_pos c10] at hres
        rw [← hres]
        exact ruleSms_noCall _ _ _ _ _
      rw [if_neg c10] at hres
      by_cases c11 : (strSub (pyStrip (pyLower s)) "wikipedia" ||
          strPref (pyStrip (pyLower s)) "who is " ||
          strPref (pyStrip (pyLower s)) "what is ") = true
      · rw [if_pos c11] at hres
        rw [← hres]
        exact ruleWiki_noCall _ _ _ _ _
      rw [if_neg c11] at hres
      rw [← hres]
      rfl
  · intro env q rems t hc h0 h1 h2 h3 h4 h5 h6 h7 h8 h9 h10 h11
    simp [handle_command, ruleCall, hc, h0, h1, h2, h3, h4, h5, h6, h7, h8, h9, h10, h11]

/-- Witness for the amended C7 at "call 12345" with the capability
absent. -/
theorem call_capability_gating_w :
    ((handle_command envStd [] (some "call 12345") []).1.all
      fun e => !(isCallEv e)) = true ∧
    handle_command envStd [] (some "call 12345") [] =
      ([Event.printed ("Heard: " ++ pyStrip (pyLower "call 12345")),
        Event.said "Call feature unavailable on this device."], [], []) :=
  ⟨call_capability_gating.1 envStd [] [] (some "call 12345") rfl,
   call_capability_gating.2 envStd [] [] "call 12345" rfl (by decide) (by decide) (by decide)
     (by decide) (by decide) (by decide) (by decide) (by decide) (by decide) (by decide)
     (by decide) (by decide)⟩

/-- C3 counterexample: with the wikipedia module present but the lookup
raising, the dispatcher only speaks the failure — it opens no web search
(and no URL at all), refuting the claimed lookup-failure fallback. -/
theorem wiki_lookup_failure_no_fallback :
    (handle_command envWikiFail [] (some "wikipedia python language") []).1 =
      [Event.printed "Heard: wikipedia python language",
       Event.said "Couldn\x27t fetch Wikipedia summary: HTTPError"] ∧
    ((handle_command envWikiFail [] (some "wikipedia python language") []).1.all
      fun e => !(isOpenEv e)) = true ∧
    envWikiFail.hasWikipedia = true := by
  exact ⟨rfl, rfl, rfl⟩

/-- C3 counterexample is above; this is the amended behavior of the
Wikipedia rule: a 2-sentence summary is requested and spoken on success;
a failing lookup only speaks the exception text (no fallback open of any
kind); an absent wikipedia module speaks a notice and opens the Wikipedia
article URL built from the stripped title. -/
theorem wiki_rule_contract (env : Env) (q : List (Option String))
    (rems : List (DateTime × String)) (t : String) (h0 : t ≠ "")
    (h1 : stopHit (pyStrip (pyLower t)) = false)
    (h2 : strSub (pyStrip (pyLower t)) "time" = false)
    (h3 : strSub (pyStrip (pyLower t)) "date" = false)
    (h4 : strPref (pyStrip (pyLower t)) "search " = false)
    (h5 : strPref (pyStrip (pyLower t)) "google " = false)
    (h6 : strPref (pyStrip (pyLower t)) "open " = false)
    (h7 : strPref (pyStrip (pyLower t)) "launch " = false)
    (h8 : strPref (pyStrip (pyLower t)) "note " = false)
    (h9 : strSub (pyStrip (pyLower t)) "take note" = false)
    (h10 : strSub (pyStrip (pyLower t)) "remind me" = false)
    (h11 : strPref (pyStrip (pyLower t)) "call " = false)
    (h12 : strPref (pyStrip (pyLower t)) "send sms to " = false)
    (h13 : strPref (pyStrip (pyLower t)) "send message to " = false)
    (h14 : (strSub (pyStrip (pyLower t)) "wikipedia" ||
        strPref (pyStrip (pyLower t)) "who is " ||
        strPref (pyStrip (pyLower t)) "what is ") = true) :
    (∀ s, env.hasWikipedia = true →
      env.wikiSummary (wikiQuery (pyStrip (pyLower t))) 2 = Except.ok s →
      handle_command env q (some t) rems =
        ([Event.printed ("Heard: " ++ pyStrip (pyLower t)), Event.said s], q, rems)) ∧
    (∀ e, env.hasWikipedia = true →
      env.wikiSummary (wikiQuery (pyStrip (pyLower t))) 2 = Except.error e →
      handle_command env q (some t) rems =
        ([Event.printed ("Heard: " ++ pyStrip (pyLower t)),
          Event.said ("Couldn\x27t fetch Wikipedia summary: " ++ e)], q, rems)) ∧
    (env.hasWikipedia = false →
      handle_command env q (some t) rems =
        ([Event.printed ("Heard: " ++ pyStrip (pyLower t)),
          Event.said "Wikipedia library not installed. Opening web search.",
          Event.openedUrl ("https://en.wikipedia.org/wiki/" ++
            replSpace '_' (wikiQuery (pyStrip (pyLower t))))], q, rems)) := by
  refine ⟨?_, ?_, ?_⟩
  · intro s hwiki hsum
    simp [handle_command, ruleWiki, h0, h1, h2, h3, h4, h5, h6, h7, h8, h9, h10, h11, h12,
      h13, h14, hwiki, hsum]
  · intro e hwiki hsum
    simp [handle_command, ruleWiki, h0, h1, h2, h3, h4, h5, h6, h7, h8, h9, h10, h11, h12,
      h13, h14, hwiki, hsum]
  · intro hwiki
    simp [handle_command, ruleWiki, h0, h1, h2, h3, h4, h5, h6, h7, h8, h9, h10, h11, h12,
      h13, h14, hwiki]

/-- Witness for the amended C3: a failing lookup (wikipedia present) and
an absent module (article URL opened). -/
theorem wiki_rule_contract_w :
    handle_command envWikiFail [] (some "wikipedia python language") [] =
      ([Event.printed ("Heard: " ++ pyStrip (pyLower "wikipedia python language")),
        Event.said ("Couldn\x27t fetch Wikipedia summary: " ++ "HTTPError")], [], []) ∧
    handle_command envStd [] (some "who is alan turing") [] =
      ([Event.printed ("Heard: " ++ pyStrip (pyLower "who is alan turing")),
        Event.said "Wikipedia library not installed. Opening web search.",
        Event.openedUrl ("https://en.wikipedia.org/wiki/" ++
          replSpace '_' (wikiQuery (pyStrip (pyLower "who is alan turing"))))], [], []) :=
  ⟨(wiki_rule_contract envWikiFail [] [] "wikipedia python language" (by decide) (by decide)
      (by decide) (by decide) (by decide) (by decide) (by decide) (by decide) (by decide)
      (by decide) (by decide) (by decide) (by decide) (by decide) (by decide)).2.1
      "HTTPError" rfl rfl,
   (wiki_rule_contract envStd [] [] "who is alan turing" (by decide) (by decide)
      (by decide) (by decide) (by decide) (by decide) (by decide) (by decide) (by decide)
      (by decide) (by decide) (by decide) (by decide) (by decide) (by decide)).2.2 rfl⟩

/-- REMINDERS behavior of the open rule: untouched, nothing scheduled,
trace and queue independent of the list. -/
lemma ruleOpen_rems (txt msg : String) (q : List (Option String))
    (r1 r2 : List (DateTime × String)) :
    (ruleOpen txt [Event.printed msg] q r1).2.2 =
      r1 ++ scheduledOf (ruleOpen txt [Event.printed msg] q r1).1 ∧
    (ruleOpen txt [Event.printed msg] q r1).1 = (ruleOpen txt [Event.printed msg] q r2).1 ∧
    (ruleOpen txt [Event.printed msg] q r1).2.1 =
      (ruleOpen txt [Event.printed msg] q r2).2.1 ∧
    (scheduledOf (ruleOpen txt [Event.printed msg] q r1).1).length ≤ 1 := by
  unfold ruleOpen
  dsimp only
  repeat' split
  all_goals exact ⟨by simp [scheduledOf], rfl, rfl, by simp [scheduledOf]⟩

/-- REMINDERS behavior of the note rule. -/
lemma ruleNote_rems (env : Env) (t txt msg : String) (q : List (Option String))
    (r1 r2 : List (DateTime × String)) :
    (ruleNote env t txt [Event.printed msg] q r1).2.2 =
      r1 ++ scheduledOf (ruleNote env t txt [Event.printed msg] q r1).1 ∧
    (ruleNote env t txt [Event.printed msg] q r1).1 =
      (ruleNote env t txt [Event.printed msg] q r2).1 ∧
    (ruleNote env t txt [Event.printed msg] q r1).2.1 =
      (ruleNote env t txt [Event.printed msg] q r2).2.1 ∧
    (scheduledOf (ruleNote env t txt [Event.printed msg] q r1).1).length ≤ 1 := by
  unfold ruleNote
  dsimp only
  repeat' split
  all_goals exact ⟨by simp [scheduledOf], rfl, rfl, by simp [scheduledOf]⟩

/-- REMINDERS behavior of the remind rule: at most one entry is appended,
exactly on a successful parse; trace and queue do not read the list. -/
lemma ruleRemind_rems (env : Env) (msg : String) (q : List (Option String))
    (r1 r2 : List (DateTime × String)) :
    (ruleRemind env [Event.printed msg] q r1).2.2 =
      r1 ++ scheduledOf (ruleRemind env [Event.printed msg] q r1).1 ∧
    (ruleRemind env [Event.printed msg] q r1).1 =
      (ruleRemind env [Event.printed msg] q r2).1 ∧
    (ruleRemind env [Event.printed msg] q r1).2.1 =
      (ruleRemind env [Event.printed msg] q r2).2.1 ∧
    (scheduledOf (ruleRemind env [Event.printed msg] q r1).1).length ≤ 1 := by
  unfold ruleRemind
  dsimp only
  repeat' split
  all_goals exact ⟨by simp [scheduledOf], rfl, rfl, by simp [scheduledOf]⟩

/-- REMINDERS behavior of the call rule. -/
lemma ruleCall_rems (env : Env) (txt msg : String) (q : List (Option String))
    (r1 r2 : List (DateTime × String)) :
    (ruleCall env txt [Event.printed msg] q r1).2.2 =
      r1 ++ scheduledOf (ruleCall env txt [Event.printed msg] q r1).1 ∧
    (ruleCall env txt [Event.printed msg] q r1).1 =
      (ruleCall env txt [Event.printed msg] q r2).1 ∧
    (ruleCall env txt [Event.printed msg] q r1).2.1 =
      (ruleCall env txt [Event.printed msg] q r2).2.1 ∧
    (scheduledOf (ruleCall env txt [Event.printed msg] q r1).1).length ≤ 1 := by
  unfold ruleCall
  dsimp only
  repeat' split
  all_goals exact ⟨by simp [scheduledOf], rfl, rfl, by simp [scheduledOf]⟩

/-- REMINDERS behavior of the sms rule. -/
lemma ruleSms_rems (env : Env) (txt msg : String) (q : List (Option String))
    (r1 r2 : List (DateTime × String)) :
    (ruleSms env txt [Event.printed msg] q r1).2.2 =
      r1 ++ scheduledOf (ruleSms env txt [Event.printed msg] q r1).1 ∧
    (ruleSms env txt [Event.printed msg] q r1).1 =
      (ruleSms env txt [Event.printed msg] q r2).1 ∧
    (ruleSms env txt [Event.printed msg] q r1).2.1 =
      (ruleSms env txt [Event.printed msg] q r2).2.1 ∧
    (scheduledOf (ruleSms env txt [Event.printed msg] q r1).1).length ≤ 1 := by
  unfold ruleSms
  dsimp only
  repeat' split
  all_goals exact ⟨by simp [scheduledOf], rfl, rfl, by simp [scheduledOf]⟩

/-- REMINDERS behavior of the wikipedia rule. -/
lemma ruleWiki_rems (env : Env) (txt msg : String) (q : List (Option String))
    (r1 r2 : List (DateTime × String)) :
    (ruleWiki env txt [Event.printed msg] q r1).2.2 =
      r1 ++ scheduledOf (ruleWiki env txt [Event.printed msg] q r1).1 ∧
    (ruleWiki env txt [Event.printed msg] q r1).1 =
      (ruleWiki env txt [Event.printed msg] q r2).1 ∧
    (ruleWiki env txt [Event.printed msg] q r1).2.1 =
      (ruleWiki env txt [Event.printed msg] q r2).2.1 ∧
    (scheduledOf (ruleWiki env txt [Event.printed msg] q r1).1).length ≤ 1 := by
  unfold ruleWiki
  dsimp only
  repeat' split
  all_goals exact ⟨by simp [scheduledOf], rfl, rfl, by simp [scheduledOf]⟩

/-- C9: the process-wide reminder list is append-only and never read:
every dispatch leaves `REMINDERS` equal to the old list plus exactly the
entries it schedules (at most one), and the event trace and remaining
queue are the same whatever the incoming list holds. -/
theorem reminders_append_only (env : Env) (q : List (Option String)) (t : Option String)
    (r1 r2 : List (DateTime × String)) :
    (handle_command env q t r1).2.2 = r1 ++ scheduledOf (handle_command env q t r1).1 ∧
    (handle_command env q t r1).1 = (handle_command env q t r2).1 ∧
    (handle_command env q t r1).2.1 = (handle_command env q t r2).2.1 ∧
    (scheduledOf (handle_command env q t r1).1).length ≤ 1 := by
  cases t with
  | none => exact ⟨by simp [handle_command, scheduledOf], rfl, rfl,
      by simp [handle_command, scheduledOf]⟩
  | some s =>
    unfold handle_command
    dsimp only
    by_cases c1 : s = ""
    · simp only [if_pos c1]
      exact ⟨by simp [scheduledOf], by simp, by simp, by simp [scheduledOf]⟩
    simp only [if_neg c1]
    by_cases c2 : stopHit (pyStrip (pyLower s)) = true
    · simp only [if_pos c2]
      exact ⟨by simp [scheduledOf], by simp, by simp, by simp [scheduledOf]⟩
    simp only [if_neg c2]
    by_cases c3 : strSub (pyStrip (pyLower s)) "time" = true
    · simp only [if_pos c3]
      exact ⟨by simp [scheduledOf], by simp, by simp, by simp [scheduledOf]⟩
    simp only [if_neg c3]
    by_cases c4 : strSub (pyStrip (pyLower s)) "date" = true
    · simp only [if_pos c4]
      exact ⟨by simp [scheduledOf], by simp, by simp, by simp [scheduledOf]⟩
    simp only [if_neg c4]
    by_cases c5 : (strPref (pyStrip (pyLower s)) "search " ||
        strPref (pyStrip (pyLower s)) "google ") = true
    · simp only [if_pos c5]
      exact ⟨by simp [scheduledOf], by simp, by simp, by simp [scheduledOf]⟩
    simp only [if_neg c5]
    by_cases c6 : (strPref (pyStrip (pyLower s)) "open " ||
        strPref (pyStrip (pyLower s)) "launch ") = true
    · simp only [if_pos c6]
      exact ruleOpen_rems _ _ _ _ _
    simp only [if_neg c6]
    by_cases c7 : (strPref (pyStrip (pyLower s)) "note " ||
        strSub (pyStrip (pyLower s)) "take note") = true
    · simp only [if_pos c7]
      exact ruleNote_rems _ _ _ _ _ _ _
    simp only [if_neg c7]
    by_cases c8 : strSub (pyStrip (pyLower s)) "remind me" = true
    · simp only [if_pos c8]
      exact ruleRemind_rems _ _ _ _ _
    simp only [if_neg c8]
    by_cases c9 : strPref (pyStrip (pyLower s)) "call " = true
    · simp only [if_pos c9]
      exact ruleCall_rems _ _ _ _ _ _
    simp only [if_neg c9]
    by_cases c10 : (strPref (pyStrip (pyLower s)) "send sms to " ||
        strPref (pyStrip (pyLower s)) "send message to ") = true
    · simp only [if_pos c10]
      exact ruleSms_rems _ _ _ _ _ _
    simp only [if_neg c10]
    by_cases c11 : (strSub (pyStrip (pyLower s)) "wikipedia" ||
        strPref (pyStrip (pyLower s)) "who is " ||
        strPref (pyStrip (pyLower s)) "what is ") = true
    · simp only [if_pos c11]
      exact ruleWiki_rems _ _ _ _ _ _
    simp only [if_neg c11]
    exact ⟨by simp [scheduledOf], by simp, by simp, by simp [scheduledOf]⟩
